import Mathlib

/-!
Verification of the vote aggregation and classification engine of the
news-voting application: the `VoteScoreCalculator` class in
`src/components/newsList.js`.

The JavaScript class is embedded shallowly:

* vote counters are `Nat`; the policy fields `threshold` and `minVotes`
  (arbitrary JS numbers) are `ℚ`;
* a JS options/data object with possibly-missing fields becomes a structure
  of `Option` fields; the JS idiom `x || d` — which substitutes the default
  `d` not only for a missing field but also for a supplied `0`, since `0`
  is falsy — is `jsOr` / `jsOrQ`;
* `Math.round` is `jsRound`, round half towards positive infinity;
* invocations of the `onStatusChange` callback are returned as an explicit
  event list; `onScoreUpdate`, `console.*` logging and the `showLoading`
  UI toggle carry no verified state and are not recorded;
* the `async recalculateScore` method is additionally split at its single
  `await` point into a start step and a completion step (`RAction`,
  `rstep`) so that interleavings of overlapping calls can be analysed.
-/

/-- JS `o || d` for an optional natural-number field: a missing field or a
supplied falsy value (`0`) yields the default `d`. -/
def jsOr (o : Option ℕ) (d : ℕ) : ℕ :=
  match o with
  | none => d
  | some v => if v = 0 then d else v

/-- JS `o || d` for an optional numeric (`ℚ`-valued) field. -/
def jsOrQ (o : Option ℚ) (d : ℚ) : ℚ :=
  match o with
  | none => d
  | some v => if v = 0 then d else v

/-- JS `Math.round`: round half towards positive infinity. -/
def jsRound (q : ℚ) : ℤ := ⌊q + 1 / 2⌋

/-- The four classification states used by the calculator:
`'pending' | 'fake' | 'non-fake' | 'insufficient'`. -/
inductive Status where
  | pending
  | fake
  | nonFake
  | insufficient
  deriving DecidableEq, Repr

/-- The `this.voteData` record: the three raw counters plus the stored
`totalVotes` and `validVotes` fields. -/
structure VoteData where
  fakeVotes : ℕ
  nonFakeVotes : ℕ
  totalVotes : ℕ
  invalidVotes : ℕ
  validVotes : ℕ
  deriving DecidableEq, Repr

/-- The `this.scoreData` record. -/
structure ScoreData where
  fakeScore : ℚ
  confidence : ℚ
  status : Status
  deriving DecidableEq, Repr

/-- The mutable instance state of a `VoteScoreCalculator`. -/
structure CalcState where
  threshold : ℚ
  minVotes : ℚ
  currentNewsId : Option ℕ
  voteData : VoteData
  scoreData : ScoreData
  deriving DecidableEq, Repr

/-- One `onStatusChange(newStatus, oldStatus)` invocation. -/
structure StatusChange where
  newStatus : Status
  oldStatus : Status
  deriving DecidableEq, Repr

/-- The policy-relevant part of the constructor's `options` object; a
`none` field models an absent property. -/
structure Options where
  threshold : Option ℚ
  minVotes : Option ℚ
  deriving DecidableEq, Repr

/-- The `constructor(options = {})`: `this.threshold = options.threshold
|| 0.6`, `this.minVotes = options.minVotes || 5`, all counters zero and
status `'pending'`. No range check is performed here. -/
def mkCalculator (options : Options) : CalcState :=
  { threshold := jsOrQ options.threshold (3 / 5)
    minVotes := jsOrQ options.minVotes 5
    currentNewsId := none
    voteData :=
      { fakeVotes := 0, nonFakeVotes := 0, totalVotes := 0
        invalidVotes := 0, validVotes := 0 }
    scoreData := { fakeScore := 0, confidence := 0, status := Status.pending } }

/-- The `data` argument of `updateVoteData`: a JS object whose properties
may each be absent. -/
structure VoteInput where
  fakeVotes : Option ℕ
  nonFakeVotes : Option ℕ
  totalVotes : Option ℕ
  invalidVotes : Option ℕ
  validVotes : Option ℕ
  deriving DecidableEq, Repr

/-- The vote-data object built inside `updateVoteData`: every field is
`data.f || 0` except `validVotes`, which is
`data.validVotes || (data.fakeVotes || 0) + (data.nonFakeVotes || 0)`. -/
def mkVoteData (data : VoteInput) : VoteData :=
  { fakeVotes := jsOr data.fakeVotes 0
    nonFakeVotes := jsOr data.nonFakeVotes 0
    totalVotes := jsOr data.totalVotes 0
    invalidVotes := jsOr data.invalidVotes 0
    validVotes := jsOr data.validVotes (jsOr data.fakeVotes 0 + jsOr data.nonFakeVotes 0) }

/-- The fake-score expression in `calculateScore`:
`validVotes > 0 ? fakeVotes / validVotes : 0`. -/
def fakeScoreOf (vd : VoteData) : ℚ :=
  if 0 < vd.validVotes then (vd.fakeVotes : ℚ) / (vd.validVotes : ℚ) else 0

/-- `calculateConfidence(fakeVotes, nonFakeVotes)`. In JS, when
`this.minVotes * 5` is `0` and `total > 0`, `total / 0` evaluates to
`Infinity` and `Math.min(Infinity, 1)` is `1`; the guard on
`minVotes * 5 = 0` reproduces exactly that behaviour, which `ℚ`'s
division-by-zero convention (`x / 0 = 0`) would otherwise get wrong. -/
def calculateConfidence (minVotes : ℚ) (fakeVotes nonFakeVotes : ℕ) : ℚ :=
  let total : ℚ := (fakeVotes : ℚ) + (nonFakeVotes : ℚ)
  if total = 0 then 0
  else
    let ratioDifference := |(fakeVotes : ℚ) - (nonFakeVotes : ℚ)| / total
    let voteCountFactor := if minVotes * 5 = 0 then 1 else min (total / (minVotes * 5)) 1
    let confidence := ratioDifference * voteCountFactor
    (jsRound (confidence * 100) : ℚ) / 100

/-- The three ordered classification rules inside `calculateScore`:
insufficient when `validVotes < this.minVotes`, else fake when
`fakeScore >= this.threshold`, else non-fake. -/
def classify (threshold minVotes : ℚ) (vd : VoteData) : Status :=
  if (vd.validVotes : ℚ) < minVotes then Status.insufficient
  else if threshold ≤ fakeScoreOf vd then Status.fake
  else Status.nonFake

/-- `calculateScore()`: recompute `fakeScore`, `confidence` and `status`
from the current vote data and policy, replace `this.scoreData`, and call
`onStatusChange(newStatus, oldStatus)` exactly when the status changed.
The returned list records the `onStatusChange` invocations. -/
def calculateScore (s : CalcState) : CalcState × List StatusChange :=
  let fakeScore := fakeScoreOf s.voteData
  let confidence := calculateConfidence s.minVotes s.voteData.fakeVotes s.voteData.nonFakeVotes
  let newStatus := classify s.threshold s.minVotes s.voteData
  let oldStatus := s.scoreData.status
  let s2 := { s with scoreData := { fakeScore := fakeScore, confidence := confidence, status := newStatus } }
  (s2, if newStatus = oldStatus then [] else [{ newStatus := newStatus, oldStatus := oldStatus }])

/-- `updateVoteData(newsId, data)`: store the news id, replace
`this.voteData` wholesale with `mkVoteData data`, then recompute. -/
def updateVoteData (newsId : ℕ) (data : VoteInput) (s : CalcState) :
    CalcState × List StatusChange :=
  calculateScore { s with currentNewsId := some newsId, voteData := mkVoteData data }

/-- `setThreshold(threshold)`: accept only `0 ≤ t ≤ 1`, then recompute;
otherwise only `console.warn`, leaving every field unchanged. -/
def setThreshold (t : ℚ) (s : CalcState) : CalcState × List StatusChange :=
  if 0 ≤ t ∧ t ≤ 1 then calculateScore { s with threshold := t } else (s, [])

/-- `setMinVotes(minVotes)`: accept only `0 ≤ m`, then recompute;
otherwise only `console.warn`, leaving every field unchanged. -/
def setMinVotes (m : ℚ) (s : CalcState) : CalcState × List StatusChange :=
  if 0 ≤ m then calculateScore { s with minVotes := m } else (s, [])

/-- Modelled from the spec: the `RecalculationError` taxonomy of §7 (the
external ledger is unreachable, times out, or returns a malformed
payload). The source's real fetch call is commented out, so no error type
appears in the code itself. -/
inductive RecalcError where
  | unreachable
  | timeout
  | malformed
  deriving DecidableEq, Repr

/-- `recalculateScore(newsId)` with the outcome of the awaited ledger read
passed as a parameter. Modelled from the spec in one respect: the fetch in
the source is commented out (replaced by an always-successful mock), so the
ledger outcome — `{fakeVotes, nonFakeVotes, invalidVotes}` on success, a
`RecalcError` otherwise — is an argument. The surrounding control flow is
translated from the source: on success the payload is applied with
`updateVoteData(newsId, ·)`; on error the `catch` block rethrows the error
and neither `voteData` nor `scoreData` is touched; the `finally` block only
toggles the loading UI. -/
def recalculateScore (newsId : ℕ) (ledger : Except RecalcError VoteInput) (s : CalcState) :
    CalcState × Except RecalcError (List StatusChange) :=
  match ledger with
  | Except.error e => (s, Except.error e)
  | Except.ok data =>
    let r := updateVoteData newsId data s
    (r.1, Except.ok r.2)

/-- One event-loop step of an in-flight `recalculateScore` call: `start`
is the synchronous prefix up to the `await` (showing the loading state and
issuing the ledger read), `complete` is the resumption after the read
resolves, carrying the payload it returned. -/
inductive RAction where
  | start (newsId : ℕ)
  | complete (newsId : ℕ) (data : VoteInput)
  deriving DecidableEq, Repr

/-- Calculator state together with the list of `recalculateScore`
invocations that have started and not yet completed (a ghost variable: the
source keeps no such record, and contains no per-article lock, queue or
guard, so `start` is enabled unconditionally). -/
structure CoordState where
  engine : CalcState
  inflight : List ℕ
  deriving DecidableEq, Repr

/-- Event-loop semantics of overlapping `recalculateScore` calls. A
`start` records a new in-flight invocation — nothing in the source blocks
it while another is outstanding. A `complete` of a pending invocation
applies its whole payload in one synchronous `updateVoteData` call. -/
def rstep (st : CoordState) (a : RAction) : CoordState :=
  match a with
  | RAction.start id => { st with inflight := id :: st.inflight }
  | RAction.complete id data =>
    if id ∈ st.inflight then
      { engine := (updateVoteData id data st.engine).1, inflight := st.inflight.erase id }
    else st

/-- Run a schedule of event-loop steps from a coordinator state. -/
def rrun (st : CoordState) (sched : List RAction) : CoordState :=
  sched.foldl rstep st

/-- The confidence formula exactly as §4.2 of the spec states it:
`ratioDifference × voteCountFactor` with
`ratioDifference = |fakeVotes − nonFakeVotes| / validVotes` (0 when
`validVotes = 0`), `voteCountFactor = min(validVotes / (minValidVotes × 5), 1)`
(1 when `minValidVotes = 0`), rounded once, at the end, to two decimal
places with round-half-up semantics. -/
def specConfidence (minValidVotes : ℚ) (fakeVotes nonFakeVotes : ℕ) : ℚ :=
  let validVotes : ℚ := (fakeVotes : ℚ) + (nonFakeVotes : ℚ)
  let ratioDifference :=
    if validVotes = 0 then 0 else |(fakeVotes : ℚ) - (nonFakeVotes : ℚ)| / validVotes
  let voteCountFactor :=
    if minValidVotes = 0 then 1 else min (validVotes / (minValidVotes * 5)) 1
  (jsRound (ratioDifference * voteCountFactor * 100) : ℚ) / 100

/-- The ledger read `A = {10, 5, 0}` from the spec's concurrency example. -/
def tallyA : VoteInput :=
  { fakeVotes := some 10, nonFakeVotes := some 5, totalVotes := none
    invalidVotes := some 0, validVotes := none }

/-- The ledger read `B = {12, 6, 1}` from the spec's concurrency example. -/
def tallyB : VoteInput :=
  { fakeVotes := some 12, nonFakeVotes := some 6, totalVotes := none
    invalidVotes := some 1, validVotes := none }

/-- A coordinator over a freshly constructed calculator with default
policy and no in-flight recalculation. -/
def initCoord : CoordState :=
  { engine := mkCalculator { threshold := none, minVotes := none }, inflight := [] }

/-! ## Helper lemmas -/

/-- `updateVoteData` installs exactly `mkVoteData data` as the vote data. -/
lemma updateVoteData_voteData (newsId : ℕ) (data : VoteInput) (s : CalcState) :
    (updateVoteData newsId data s).1.voteData = mkVoteData data := rfl

/-- `calculateScore` assigns the status computed by the classifier. -/
lemma calculateScore_status (s : CalcState) :
    (calculateScore s).1.scoreData.status = classify s.threshold s.minVotes s.voteData := rfl

/-- `calculateScore` leaves the policy and vote data untouched. -/
lemma calculateScore_frame (s : CalcState) :
    (calculateScore s).1.threshold = s.threshold ∧
    (calculateScore s).1.minVotes = s.minVotes ∧
    (calculateScore s).1.voteData = s.voteData := ⟨rfl, rfl, rfl⟩

/-- If a JS `o || d` expression evaluates to `0`, the default was `0`. -/
lemma jsOr_eq_zero {o : Option ℕ} {d : ℕ} (h : jsOr o d = 0) : d = 0 := by
  cases o with
  | none => exact h
  | some v =>
    by_cases hz : v = 0
    · simpa [jsOr, hz] using h
    · simp [jsOr, hz] at h

/-- A stored `validVotes` of zero forces both valid counters to be zero:
`updateVoteData` only stores `0` there when `data.validVotes` is falsy and
`(data.fakeVotes || 0) + (data.nonFakeVotes || 0) = 0`. -/
lemma mkVoteData_valid_eq_zero {data : VoteInput} (h : (mkVoteData data).validVotes = 0) :
    (mkVoteData data).fakeVotes = 0 ∧ (mkVoteData data).nonFakeVotes = 0 := by
  have hsum : jsOr data.fakeVotes 0 + jsOr data.nonFakeVotes 0 = 0 := jsOr_eq_zero h
  have hf : jsOr data.fakeVotes 0 = 0 := by omega
  have hnf : jsOr data.nonFakeVotes 0 = 0 := by omega
  exact ⟨hf, hnf⟩

/-! ## The claims -/

/-- C1: every evaluation of the classifier assigns the status by the three
ordered rules — `insufficient` when `validVotes < minValidVotes`, else
`fake` when `fakeScore ≥ threshold` (inclusive boundary), else `non-fake`.
In particular `fakeVotes=6, nonFakeVotes=4, threshold=0.6` yields `fake`,
and `minValidVotes=5, fakeVotes=4, nonFakeVotes=0` yields `insufficient`
despite the ratio being 1. -/
theorem spec_C1 (s : CalcState) :
    ((calculateScore s).1.scoreData.status =
      if (s.voteData.validVotes : ℚ) < s.minVotes then Status.insufficient
      else if s.threshold ≤ fakeScoreOf s.voteData then Status.fake
      else Status.nonFake)
    ∧ ((updateVoteData 1
          { fakeVotes := some 6, nonFakeVotes := some 4, totalVotes := none
            invalidVotes := none, validVotes := none }
          (mkCalculator { threshold := none, minVotes := none })).1.scoreData.status
        = Status.fake)
    ∧ ((updateVoteData 2
          { fakeVotes := some 4, nonFakeVotes := some 0, totalVotes := none
            invalidVotes := none, validVotes := none }
          (mkCalculator { threshold := none, minVotes := none })).1.scoreData.status
        = Status.insufficient) := by
  refine ⟨rfl, ?_, ?_⟩
  · norm_num [updateVoteData, calculateScore, classify, fakeScoreOf, mkVoteData,
      mkCalculator, jsOr, jsOrQ]
  · norm_num [updateVoteData, calculateScore, classify, fakeScoreOf, mkVoteData,
      mkCalculator, jsOr, jsOrQ]

/-- C2: for every tally with `validVotes > 0` (with `validVotes` the sum of
the two valid counters) and every policy value, the computed confidence
equals the spec's formula `ratioDifference × voteCountFactor`, rounded once
at the end to two decimals half-up; and the concrete scenario
`fakeVotes=30, nonFakeVotes=20, minValidVotes=5` yields `0.20`. -/
theorem spec_C2 (fakeVotes nonFakeVotes : ℕ) (minVotes : ℚ)
    (h : 0 < fakeVotes + nonFakeVotes) :
    calculateConfidence minVotes fakeVotes nonFakeVotes
      = specConfidence minVotes fakeVotes nonFakeVotes
    ∧ calculateConfidence 5 30 20 = 1 / 5 := by
  constructor
  · have htot : ((fakeVotes : ℚ) + (nonFakeVotes : ℚ)) ≠ 0 := by
      have h2 : (0 : ℚ) < (fakeVotes : ℚ) + (nonFakeVotes : ℚ) := by
        exact_mod_cast h
      exact ne_of_gt h2
    by_cases hm : minVotes = 0
    · simp [calculateConfidence, specConfidence, htot, hm]
    · simp [calculateConfidence, specConfidence, htot, hm, mul_eq_zero]
  · norm_num [calculateConfidence, jsRound]

/-- C3: recomputing with unchanged tally and policy yields an identical
snapshot and emits no status-change notification the second time; in
general `onStatusChange` is invoked exactly when the freshly classified
status differs from the previous one. -/
theorem spec_C3 (s : CalcState) :
    ((calculateScore (calculateScore s).1).1.scoreData = (calculateScore s).1.scoreData)
    ∧ ((calculateScore (calculateScore s).1).2 = [])
    ∧ ((calculateScore s).2 ≠ [] ↔ classify s.threshold s.minVotes s.voteData ≠ s.scoreData.status) := by
  refine ⟨?_, ?_, ?_⟩
  · simp [calculateScore]
  · simp [calculateScore]
  · by_cases h : classify s.threshold s.minVotes s.voteData = s.scoreData.status
    · simp [calculateScore, h]
    · simp [calculateScore, h]

/-- C5: when the ledger read fails, `recalculateScore` surfaces the error
to its caller unchanged, the previous vote data and score data are
retained exactly, and no retry is attempted (the single ledger outcome is
consumed exactly once). -/
theorem spec_C5 (newsId : ℕ) (e : RecalcError) (s : CalcState) :
    recalculateScore newsId (Except.error e) s = (s, Except.error e) := rfl

/-- Closed instantiation of `spec_C2` at the spec's concrete scenario
`fakeVotes=30, nonFakeVotes=20, minValidVotes=5`. -/
theorem spec_C2_witness :
    0 < 30 + 20
    ∧ (calculateConfidence 5 30 20 = specConfidence 5 30 20
       ∧ calculateConfidence 5 30 20 = 1 / 5) :=
  ⟨by norm_num, spec_C2 30 20 5 (by norm_num)⟩

/-- The shape of payload that `recalculateScore` hands to `updateVoteData`:
`{newsId, fakeVotes, nonFakeVotes, invalidVotes, status}` — neither
`totalVotes` nor `validVotes` is present. -/
def recalcStyleInput : VoteInput :=
  { fakeVotes := some 1, nonFakeVotes := some 1, totalVotes := none
    invalidVotes := some 1, validVotes := none }

/-- C4 fails as stated: storing a tally through `updateVoteData` with a
recalculation-shaped payload (`fakeVotes=1, nonFakeVotes=1, invalidVotes=1`,
no `totalVotes` field) leaves `totalVotes = 0` while
`validVotes + invalidVotes = 3`: `totalVotes` is taken from the input, not
recomputed from the stored counters. -/
theorem spec_C4_counterexample :
    (updateVoteData 1 recalcStyleInput
        (mkCalculator { threshold := none, minVotes := none })).1.voteData.totalVotes
      ≠ (updateVoteData 1 recalcStyleInput
          (mkCalculator { threshold := none, minVotes := none })).1.voteData.validVotes
        + (updateVoteData 1 recalcStyleInput
            (mkCalculator { threshold := none, minVotes := none })).1.voteData.invalidVotes := by
  decide

/-- C4 as amended: after any `updateVoteData` whose input carries no
truthy `validVotes` field (in particular every recalculation payload),
the stored `validVotes` is recomputed as `fakeVotes + nonFakeVotes`;
`totalVotes`, however, is always taken over from the input (`0` when
absent), never recomputed from the stored counters. -/
theorem spec_C4 (newsId : ℕ) (data : VoteInput) (s : CalcState)
    (h : data.validVotes = none ∨ data.validVotes = some 0) :
    ((updateVoteData newsId data s).1.voteData.validVotes
      = (updateVoteData newsId data s).1.voteData.fakeVotes
        + (updateVoteData newsId data s).1.voteData.nonFakeVotes)
    ∧ ((updateVoteData newsId data s).1.voteData.totalVotes = jsOr data.totalVotes 0) := by
  rcases h with h | h <;>
    simp [updateVoteData_voteData, mkVoteData, jsOr, h]

/-- Closed instantiation of `spec_C4` at the recalculation-shaped payload. -/
theorem spec_C4_witness :
    (recalcStyleInput.validVotes = none ∨ recalcStyleInput.validVotes = some 0)
    ∧ (((updateVoteData 1 recalcStyleInput
            (mkCalculator { threshold := none, minVotes := none })).1.voteData.validVotes
          = (updateVoteData 1 recalcStyleInput
              (mkCalculator { threshold := none, minVotes := none })).1.voteData.fakeVotes
            + (updateVoteData 1 recalcStyleInput
                (mkCalculator { threshold := none, minVotes := none })).1.voteData.nonFakeVotes)
       ∧ ((updateVoteData 1 recalcStyleInput
            (mkCalculator { threshold := none, minVotes := none })).1.voteData.totalVotes
          = jsOr recalcStyleInput.totalVotes 0)) :=
  ⟨Or.inl rfl, spec_C4 1 recalcStyleInput _ (Or.inl rfl)⟩

/-- C6 fails as stated in its mechanism clause: nothing in
`recalculateScore` serializes per-article recalculation, so after two
`start` steps for article 1 two invocations are simultaneously in flight. -/
theorem spec_C6_counterexample :
    ¬ ((rrun initCoord [RAction.start 1, RAction.start 1]).inflight.length ≤ 1) := by
  decide

/-- C6 as amended: the completion of a pending recalculation installs its
whole ledger payload in one synchronous `updateVoteData` call, so after two
overlapping recalculations with reads `A = {10,5,0}` and `B = {12,6,1}`
complete — in either order — the vote data equals exactly one of the two
reads in full, never a mix; this holds even though both calls were in
flight simultaneously, not because of any per-article serialization. -/
theorem spec_C6 (st : CoordState) (id : ℕ) (data : VoteInput) (h : id ∈ st.inflight) :
    ((rstep st (RAction.complete id data)).engine.voteData = mkVoteData data)
    ∧ ((rrun initCoord
          [RAction.start 1, RAction.start 1,
           RAction.complete 1 tallyA, RAction.complete 1 tallyB]).engine.voteData
        = mkVoteData tallyB)
    ∧ ((rrun initCoord
          [RAction.start 1, RAction.start 1,
           RAction.complete 1 tallyB, RAction.complete 1 tallyA]).engine.voteData
        = mkVoteData tallyA) := by
  refine ⟨?_, by decide, by decide⟩
  simp [rstep, h, updateVoteData_voteData]

/-- Closed instantiation of `spec_C6` with one pending invocation for
article 1 completing with read `A`. -/
theorem spec_C6_witness :
    (1 ∈ ({ engine := mkCalculator { threshold := none, minVotes := none },
            inflight := [1] } : CoordState).inflight)
    ∧ (((rstep { engine := mkCalculator { threshold := none, minVotes := none },
                 inflight := [1] } (RAction.complete 1 tallyA)).engine.voteData
          = mkVoteData tallyA)
       ∧ ((rrun initCoord
             [RAction.start 1, RAction.start 1,
              RAction.complete 1 tallyA, RAction.complete 1 tallyB]).engine.voteData
           = mkVoteData tallyB)
       ∧ ((rrun initCoord
             [RAction.start 1, RAction.start 1,
              RAction.complete 1 tallyB, RAction.complete 1 tallyA]).engine.voteData
           = mkVoteData tallyA)) :=
  ⟨by decide, spec_C6 _ 1 tallyA (by decide)⟩

/-- C7: a stored tally with `validVotes = 0` (every such tally has both
valid counters zero, by `mkVoteData_valid_eq_zero`) yields the defined
neutral values `fakeScore = 0` and `confidence = 0`; both divisions are
guarded, so no division by zero is evaluated. -/
theorem spec_C7 (newsId : ℕ) (data : VoteInput) (s : CalcState)
    (h : (mkVoteData data).validVotes = 0) :
    ((updateVoteData newsId data s).1.scoreData.fakeScore = 0)
    ∧ ((updateVoteData newsId data s).1.scoreData.confidence = 0) := by
  obtain ⟨hf, hnf⟩ := mkVoteData_valid_eq_zero h
  constructor
  · show fakeScoreOf (mkVoteData data) = 0
    simp [fakeScoreOf, h]
  · show calculateConfidence s.minVotes (mkVoteData data).fakeVotes
      (mkVoteData data).nonFakeVotes = 0
    simp [calculateConfidence, hf, hnf]

/-- Closed instantiation of `spec_C7` at the all-absent input (a
brand-new article with no votes). -/
theorem spec_C7_witness :
    ((mkVoteData { fakeVotes := none, nonFakeVotes := none, totalVotes := none
                   invalidVotes := none, validVotes := none }).validVotes = 0)
    ∧ (((updateVoteData 0
            { fakeVotes := none, nonFakeVotes := none, totalVotes := none
              invalidVotes := none, validVotes := none }
            (mkCalculator { threshold := none, minVotes := none })).1.scoreData.fakeScore = 0)
       ∧ ((updateVoteData 0
            { fakeVotes := none, nonFakeVotes := none, totalVotes := none
              invalidVotes := none, validVotes := none }
            (mkCalculator { threshold := none, minVotes := none })).1.scoreData.confidence = 0)) :=
  ⟨rfl, spec_C7 0 _ _ rfl⟩

/-- The tally of C8's scenario: 11 fake and 9 non-fake votes, so
`fakeScore = 11/20 = 0.55`. -/
def scenarioInput : VoteInput :=
  { fakeVotes := some 11, nonFakeVotes := some 9, totalVotes := none
    invalidVotes := none, validVotes := none }

/-- C8: an in-range `setThreshold` installs the new threshold and
immediately recomputes the existing snapshot; concretely, lowering the
threshold from the default 0.6 to 0.5 over a tally with `fakeScore = 0.55`
flips the status from `non-fake` to `fake` and emits exactly one
status-change event. -/
theorem spec_C8 (t : ℚ) (s : CalcState) (h0 : 0 ≤ t) (h1 : t ≤ 1) :
    (setThreshold t s = calculateScore { s with threshold := t })
    ∧ ((updateVoteData 1 scenarioInput
          (mkCalculator { threshold := none, minVotes := none })).1.scoreData.status
        = Status.nonFake)
    ∧ ((setThreshold (1 / 2)
          (updateVoteData 1 scenarioInput
            (mkCalculator { threshold := none, minVotes := none })).1).1.scoreData.status
        = Status.fake)
    ∧ ((setThreshold (1 / 2)
          (updateVoteData 1 scenarioInput
            (mkCalculator { threshold := none, minVotes := none })).1).2
        = [{ newStatus := Status.fake, oldStatus := Status.nonFake }]) := by
  refine ⟨by simp [setThreshold, h0, h1], ?_, ?_, ?_⟩
  · norm_num [updateVoteData, calculateScore, classify, fakeScoreOf, mkVoteData,
      mkCalculator, scenarioInput, jsOr, jsOrQ]
  · norm_num [setThreshold, updateVoteData, calculateScore, classify, fakeScoreOf,
      mkVoteData, mkCalculator, scenarioInput, jsOr, jsOrQ]
  · norm_num [setThreshold, updateVoteData, calculateScore, classify, fakeScoreOf,
      mkVoteData, mkCalculator, scenarioInput, jsOr, jsOrQ]
    decide

/-- Closed instantiation of `spec_C8` at `t = 1/2` over the scenario
state. -/
theorem spec_C8_witness :
    (setThreshold (1 / 2)
        (updateVoteData 1 scenarioInput
          (mkCalculator { threshold := none, minVotes := none })).1
      = calculateScore
          { (updateVoteData 1 scenarioInput
              (mkCalculator { threshold := none, minVotes := none })).1 with threshold := 1 / 2 })
    ∧ ((updateVoteData 1 scenarioInput
          (mkCalculator { threshold := none, minVotes := none })).1.scoreData.status
        = Status.nonFake)
    ∧ ((setThreshold (1 / 2)
          (updateVoteData 1 scenarioInput
            (mkCalculator { threshold := none, minVotes := none })).1).1.scoreData.status
        = Status.fake)
    ∧ ((setThreshold (1 / 2)
          (updateVoteData 1 scenarioInput
            (mkCalculator { threshold := none, minVotes := none })).1).2
        = [{ newStatus := Status.fake, oldStatus := Status.nonFake }]) :=
  spec_C8 (1 / 2) _ (by norm_num) (by norm_num)

/-- C9: an out-of-range policy update is rejected at the boundary — a
threshold outside `[0,1]` or a negative minimum-vote count leaves the
whole state (policy, vote data, score data) unchanged and emits nothing. -/
theorem spec_C9 (s : CalcState) (t m : ℚ)
    (ht : ¬ (0 ≤ t ∧ t ≤ 1)) (hm : m < 0) :
    setThreshold t s = (s, []) ∧ setMinVotes m s = (s, []) := by
  constructor
  · simp [setThreshold, ht]
  · simp [setMinVotes, not_le.mpr hm]

/-- Closed instantiation of `spec_C9` at `t = 2`, `m = -1`. -/
theorem spec_C9_witness :
    (¬ ((0 : ℚ) ≤ 2 ∧ (2 : ℚ) ≤ 1))
    ∧ ((-1 : ℚ) < 0)
    ∧ (setThreshold 2 (mkCalculator { threshold := none, minVotes := none })
        = (mkCalculator { threshold := none, minVotes := none }, [])
       ∧ setMinVotes (-1) (mkCalculator { threshold := none, minVotes := none })
        = (mkCalculator { threshold := none, minVotes := none }, [])) :=
  ⟨by norm_num, by norm_num,
    spec_C9 (mkCalculator { threshold := none, minVotes := none }) 2 (-1)
      (by norm_num) (by norm_num)⟩

/-- A JS `o || d` expression with a nonzero default never evaluates to
zero. -/
lemma jsOrQ_ne_zero (o : Option ℚ) (d : ℚ) (hd : d ≠ 0) : jsOrQ o d ≠ 0 := by
  cases o with
  | none => simpa [jsOrQ] using hd
  | some v =>
    by_cases hz : v = 0
    · simpa [jsOrQ, hz] using hd
    · simp [jsOrQ, hz]

/-- C10: constructing with the falsy — but legal — policy values
`threshold: 0` / `minVotes: 0` silently installs the defaults `0.6` and
`5`; the constructor applies no range validation (`threshold: 7` and
`minVotes: -3` are installed as given); no constructor call can install a
zero threshold or zero minimum, while `setThreshold 0` and `setMinVotes 0`
do. -/
theorem spec_C10 :
    ((mkCalculator { threshold := some 0, minVotes := some 0 }).threshold = 3 / 5)
    ∧ ((mkCalculator { threshold := some 0, minVotes := some 0 }).minVotes = 5)
    ∧ ((mkCalculator { threshold := some 7, minVotes := some (-3) }).threshold = 7)
    ∧ ((mkCalculator { threshold := some 7, minVotes := some (-3) }).minVotes = -3)
    ∧ (∀ options : Options,
        (mkCalculator options).threshold ≠ 0 ∧ (mkCalculator options).minVotes ≠ 0)
    ∧ (∀ s : CalcState, (setThreshold 0 s).1.threshold = 0)
    ∧ (∀ s : CalcState, (setMinVotes 0 s).1.minVotes = 0) := by
  refine ⟨by norm_num [mkCalculator, jsOrQ], by norm_num [mkCalculator, jsOrQ],
    by norm_num [mkCalculator, jsOrQ], by norm_num [mkCalculator, jsOrQ], ?_, ?_, ?_⟩
  · intro options
    exact ⟨jsOrQ_ne_zero _ _ (by norm_num), jsOrQ_ne_zero _ _ (by norm_num)⟩
  · intro s
    norm_num [setThreshold, calculateScore]
  · intro s
    norm_num [setMinVotes, calculateScore]
